import Mathlib

/-!
Shallow embedding of `SpotifyResonite.py` (SpotiSocket): a WebSocket bridge
between a text protocol and the Spotify playback API.

Each request handler of the Python class `SpotifyWebSocketServer` is embedded
as a pure Lean function.  The upstream Spotify client (spotipy) and the canvas
scraper are external collaborators; a dispatch models one handler invocation,
so every upstream call the handler could make is represented by its outcome,
packaged in the `Upstream` structure (`Except Unit _` = the call either returns
a value or raises, caught by the handler's `except` clause; the canvas resolver
never raises and yields `Option String`).  A handler returns the list of
WebSocket frames it sends plus the list of upstream calls it performed, so
"sends exactly one response" and "performs no upstream mutation" are stated as
facts about those lists.  Python-specific semantics (truthiness, `int(str)`,
negative list indexing, `s[:-2]`, `str(None)`, `str(True)`) are embedded
explicitly below.
-/

namespace SpotiSocket

/-- Value of a non-empty all-digit character list, `none` otherwise. -/
def digitsToNat (cs : List Char) : Option Nat :=
  if cs ≠ [] ∧ cs.all Char.isDigit
  then some (cs.foldl (fun a c => 10 * a + (c.toNat - 48)) 0)
  else none

/-- Python `int(s)` on an ASCII string: strip surrounding whitespace, optional
sign, then decimal digits; `none` models the `ValueError` raised otherwise.
(Unicode digits and `_` separators, which CPython also accepts, are not
modelled; no wire message uses them.) -/
def pyInt (s : String) : Option Int :=
  let t := (s.data.dropWhile Char.isWhitespace).reverse.dropWhile Char.isWhitespace |>.reverse
  match t with
  | '-' :: rest => (digitsToNat rest).map (fun n => -(n : Int))
  | '+' :: rest => (digitsToNat rest).map (fun n => (n : Int))
  | _ => (digitsToNat t).map (fun n => (n : Int))

/-- Python list indexing `xs[i]`: non-negative indices from the front,
negative indices from the back; `none` models the `IndexError`. -/
def pyIndex {α : Type} (xs : List α) (i : Int) : Option α :=
  if 0 ≤ i then xs.get? i.toNat
  else
    let j : Int := (xs.length : Int) + i
    if 0 ≤ j then xs.get? j.toNat else none

/-- Python slice `s[:-2]`: every character except the final two (the whole
string shrinks to `\"\"` when it has fewer than two characters). -/
def pyTrim2 (s : String) : String :=
  ⟨s.data.take (s.data.length - 2)⟩

/-- Python `str` of a bool: `True` / `False`, as interpolated by f-strings. -/
def pyStr (b : Bool) : String := if b then "True" else "False"

/-- Python f-string interpolation of an `Optional[str]`: `None` prints as the
four-character string `None`, not as the empty string. -/
def pyOptStr : Option String → String
  | some s => s
  | none => "None"

/-- Fallback artwork URL used whenever an image list is empty. -/
def defaultIcon : String :=
  "https://developer.spotify.com/assets/branding-guidelines/icon3@2x.png"

structure Artist where
  name : String
deriving DecidableEq

structure Image where
  url : String
deriving DecidableEq

structure Album where
  name : String
  images : List Image
deriving DecidableEq

/-- One `result['item']` / search-result track object (the fields the bridge
reads). -/
structure TrackItem where
  id : String
  uri : String
  name : String
  artists : List Artist
  album : Album
  duration_ms : Int
deriving DecidableEq

structure Device where
  volume_percent : Int
deriving DecidableEq

/-- One `spotify.current_playback()` snapshot (the fields the bridge reads).
`item` is `none` when the response carries no active item. -/
structure Playback where
  item : Option TrackItem
  is_playing : Bool
  progress_ms : Int
  shuffle_state : Bool
  repeat_state : String
  device : Device
deriving DecidableEq

/-- The `self.search_results` cache: the `['tracks']['items']` list of the last
`spotify.search` response.  The Python attribute holds the whole response
dict, which is truthy whenever a search has completed — even with zero items —
so presence of the cache is `Option.isSome`, independent of `items`. -/
structure SearchResults where
  items : List TrackItem
deriving DecidableEq

/-- One `current_user_playlists()['items']` entry (the fields the bridge
reads). -/
structure PlaylistItem where
  name : String
  uri : String
  images : List Image
deriving DecidableEq

/-- Outcome of `spotify.volume`: `handle_volume` distinguishes a
`SpotifyException` (caught, surfaced as a status) from success. -/
inductive VolumeOutcome
  | ok
  | spotifyException
deriving DecidableEq

/-- Outcomes of the upstream calls a single dispatch could perform.
`Except.error ()` models the call raising (caught by the handler). -/
structure Upstream where
  current_playback : Except Unit (Option Playback)
  search : Except Unit SearchResults
  add_to_queue : Except Unit Unit
  volume : VolumeOutcome
  seek_track : Except Unit Unit
  next_track : Except Unit Unit
  previous_track : Except Unit Unit
  pause_playback : Except Unit Unit
  start_playback : Except Unit Unit
  set_shuffle : Except Unit Unit
  set_repeat : Except Unit Unit
  current_user_playlists : Except Unit (List PlaylistItem)
  canvas : Option String

/-- Upstream calls actually performed by a handler (recorded whether the call
succeeded or raised; absent when control flow never reached the call). -/
inductive Effect
  | fetchPlayback
  | searchCall (query : String)
  | addToQueue (trackId : String)
  | setVolume (v : Int)
  | seekTrack (ms : Int)
  | nextTrack
  | previousTrack
  | pausePlayback
  | startPlayback (contextUri : Option String)
  | setShuffle (state : Bool)
  | setRepeat (state : String)
  | listPlaylists
  | canvasFetch (uri : String)
deriving DecidableEq

/-- The monitor's comparison key: the three fields stored in
`self.last_playback_state`.  The empty dict `{}` is `none` at the
`Option StateKey` level (`{}` is falsy and differs from every 3-field dict). -/
structure StateKey where
  is_playing : Bool
  track_id : String
  uri : String
deriving DecidableEq

/-- Mutable state of the server object that the dispatcher touches. -/
structure ServerState where
  search_results : Option SearchResults
  last_playback_state : Option StateKey
deriving DecidableEq

/-- `album['images'][1]['url'] if album['images'] else defaultIcon`: `none`
models the `IndexError` when the list is non-empty but has no second entry. -/
def albumImg (images : List Image) : Option String :=
  if images.isEmpty then some defaultIcon
  else (images.get? 1).map Image.url

/-- `send_initial_state`: frames sent to a newly connected client.  A falsy
snapshot (`None`) sends nothing; an exception while building sends
`!initError`. -/
def send_initial_state (env : Upstream) : List String :=
  match env.current_playback with
  | Except.error _ => ["!initError"]
  | Except.ok none => []
  | Except.ok (some pb) =>
    let repeat_value :=
      if pb.repeat_state = "off" then "0"
      else if pb.repeat_state = "context" then "1"
      else if pb.repeat_state = "track" then "2"
      else "0"
    ["!init" ++ pyStr pb.shuffle_state ++ "\t" ++ repeat_value ++ "\t" ++
      pyStr pb.is_playing ++ "\t\t\t\t\t"]

/-- `handle_current_playback`: the `!current` payload, `!currentNone`, or the
fatal-status frame when `current_playback` (or the second-image lookup)
raises. -/
def handle_current_playback (env : Upstream) : List String × List Effect :=
  match env.current_playback with
  | Except.error _ => (["!statusFatal error in fetching current info"], [Effect.fetchPlayback])
  | Except.ok none => (["!currentNone"], [Effect.fetchPlayback])
  | Except.ok (some pb) =>
    match pb.item with
    | none => (["!currentNone"], [Effect.fetchPlayback])
    | some item =>
      match albumImg item.album.images with
      | none => (["!statusFatal error in fetching current info"], [Effect.fetchPlayback])
      | some album_img =>
        let artist_names := String.intercalate ", " (item.artists.map Artist.name)
        (["!current" ++ artist_names ++ "\t" ++ item.album.name ++ "\t" ++ album_img ++ "\t"
            ++ item.name ++ "\t" ++ toString pb.device.volume_percent ++ "\t"
            ++ toString pb.progress_ms ++ "\t" ++ toString item.duration_ms ++ "\t"
            ++ pyStr pb.is_playing ++ "\t" ++ pyOptStr env.canvas],
         [Effect.fetchPlayback, Effect.canvasFetch item.uri])

/-- `send_playlists`: newline-joined `name\x08icon` records with seven padding
tabs, or `!playlistsError` when the listing raises. -/
def send_playlists (env : Upstream) : List String × List Effect :=
  match env.current_user_playlists with
  | Except.error _ => (["!playlistsError"], [Effect.listPlaylists])
  | Except.ok items =>
    let recs := items.map (fun pl =>
      pl.name ++ "\x08" ++
        (match pl.images.head? with
         | some im => im.url
         | none => defaultIcon))
    (["!playlists" ++ String.intercalate "\n" recs ++ "\t\t\t\t\t\t\t"],
     [Effect.listPlaylists])

/-- `handle_next_track`. -/
def handle_next_track (env : Upstream) : List String × List Effect :=
  match env.next_track with
  | Except.ok _ => (["!statusPlaying next track"], [Effect.nextTrack])
  | Except.error _ => (["!statusError playing next track"], [Effect.nextTrack])

/-- `handle_previous_track`. -/
def handle_previous_track (env : Upstream) : List String × List Effect :=
  match env.previous_track with
  | Except.ok _ => (["!statusPlaying previous track"], [Effect.previousTrack])
  | Except.error _ => (["!statusError playing previous track"], [Effect.previousTrack])

/-- `handle_pause`. -/
def handle_pause (env : Upstream) : List String × List Effect :=
  match env.pause_playback with
  | Except.ok _ => (["!statusPaused"], [Effect.pausePlayback])
  | Except.error _ => (["!statusFailed to pause"], [Effect.pausePlayback])

/-- `handle_resume`. -/
def handle_resume (env : Upstream) : List String × List Effect :=
  match env.start_playback with
  | Except.ok _ => (["!statusPlaying"], [Effect.startPlayback none])
  | Except.error _ => (["!statusFailed to resume"], [Effect.startPlayback none])

/-- `handle_volume`: `int(volume)` first (`ValueError` → invalid-value status,
no upstream call), then `spotify.volume` whose `SpotifyException` is surfaced
as a device status.  The success echo interpolates the raw argument string. -/
def handle_volume (env : Upstream) (volume : String) : List String × List Effect :=
  match pyInt volume with
  | none => (["!statusInvalid volume value"], [])
  | some v =>
    match env.volume with
    | VolumeOutcome.ok => (["!statusVolume set to: " ++ volume], [Effect.setVolume v])
    | VolumeOutcome.spotifyException =>
      (["!statusError adjusting volume, it might not be allowed on your selected device"],
       [Effect.setVolume v])

/-- `handle_shuffle`. -/
def handle_shuffle (env : Upstream) (state : Bool) : List String × List Effect :=
  match env.set_shuffle with
  | Except.ok _ =>
    (["!statusShuffle " ++ (if state then "enabled" else "disabled")], [Effect.setShuffle state])
  | Except.error _ => (["!statusError setting shuffle state"], [Effect.setShuffle state])

/-- `handle_repeat`. -/
def handle_repeat (env : Upstream) (state : String) : List String × List Effect :=
  match env.set_repeat with
  | Except.ok _ => (["!statusRepeat mode set to: " ++ state], [Effect.setRepeat state])
  | Except.error _ => (["!statusError setting repeat state"], [Effect.setRepeat state])

/-- Search-record cover URL: `track['album']['images'][1]['url']` when the
image list is non-empty (second entry; `none` is the `IndexError`), otherwise
the fallback icon. -/
def coverOf (t : TrackItem) : Option String :=
  if t.album.images.isEmpty then some defaultIcon
  else (t.album.images.get? 1).map Image.url

/-- One `name\x08artist\x08cover\n` search record. -/
def recordOf (t : TrackItem) : Option String :=
  (coverOf t).map (fun cover =>
    t.name ++ "\x08" ++ String.intercalate ", " (t.artists.map Artist.name) ++ "\x08"
      ++ cover ++ "\n")

/-- Concatenation of the search records; `none` when any record raises. -/
def buildRecords : List TrackItem → Option String
  | [] => some ""
  | t :: ts =>
    match recordOf t, buildRecords ts with
    | some r, some rest => some (r ++ rest)
    | _, _ => none

/-- `handle_search`: empty query returns silently; otherwise the search runs
and its response overwrites the cache *before* the records are formatted, so a
formatting `IndexError` still leaves the new cache in place.  The assembled
output is sent through the unconditional `output[:-2]` slice. -/
def handle_search (env : Upstream) (cache : Option SearchResults)
    (query extra2 : String) : List String × List Effect × Option SearchResults :=
  if query = "" then ([], [], cache)
  else
    match env.search with
    | Except.error _ => (["!statusError performing search"], [Effect.searchCall query], cache)
    | Except.ok res =>
      if extra2 = "nameartistcover" then
        match buildRecords res.items with
        | none => (["!statusError performing search"], [Effect.searchCall query], some res)
        | some body =>
          ([pyTrim2 ("!search" ++ (body ++ "\t\t\t\t\t\t\t"))],
           [Effect.searchCall query], some res)
      else
        ([pyTrim2 "!search"], [Effect.searchCall query], some res)

/-- `handle_add_queue`: guarded by `source == 'fromsearch'` and truthiness of
the cached search response; `int(index)` and the (Python, possibly negative)
indexing raise into the generic error status; otherwise the track id is
enqueued. -/
def handle_add_queue (env : Upstream) (cache : Option SearchResults)
    (index source : String) : List String × List Effect :=
  match cache, decide (source = "fromsearch") with
  | some res, true =>
    (match pyInt index with
     | none => (["!statusError adding track to queue"], [])
     | some i =>
       match pyIndex res.items i with
       | none => (["!statusError adding track to queue"], [])
       | some track =>
         match env.add_to_queue with
         | Except.ok _ => (["!statusTrack added to queue"], [Effect.addToQueue track.id])
         | Except.error _ =>
           (["!statusError adding track to queue"], [Effect.addToQueue track.id]))
  | _, _ => (["!statusNo search results available"], [])

/-- `handle_play_playlist`: fresh playlist listing, then index (possibly
negative), then `start_playback(context_uri=...)`; every raise becomes the
same error status. -/
def handle_play_playlist (env : Upstream) (playlist_index : String) :
    List String × List Effect :=
  match env.current_user_playlists with
  | Except.error _ => (["!statusError playing playlist"], [Effect.listPlaylists])
  | Except.ok items =>
    match pyInt playlist_index with
    | none => (["!statusError playing playlist"], [Effect.listPlaylists])
    | some i =>
      match pyIndex items i with
      | none => (["!statusError playing playlist"], [Effect.listPlaylists])
      | some pl =>
        match env.start_playback with
        | Except.ok _ =>
          (["!statusPlaying playlist"],
           [Effect.listPlaylists, Effect.startPlayback (some pl.uri)])
        | Except.error _ =>
          (["!statusError playing playlist"],
           [Effect.listPlaylists, Effect.startPlayback (some pl.uri)])

/-- `handle_seek`: `int(position)` and the upstream call sit under one
`except Exception`, so both failure modes yield the same status; the success
echo interpolates the parsed integer. -/
def handle_seek (env : Upstream) (position : String) : List String × List Effect :=
  match pyInt position with
  | none => (["!statusError seeking track"], [])
  | some ms =>
    match env.seek_track with
    | Except.ok _ => (["!statusSeeked to position: " ++ toString ms ++ "ms"], [Effect.seekTrack ms])
    | Except.error _ => (["!statusError seeking track"], [Effect.seekTrack ms])

/-- The command table of `process_message`, applied to the decoded positional
slots.  Unknown commands get the `Unknown Command` status. -/
def dispatch (env : Upstream) (st : ServerState)
    (command query extra1 extra2 : String) :
    List String × List Effect × ServerState :=
  match command with
  | "current" => let r := handle_current_playback env; (r.1, r.2, st)
  | "playlists" => let r := send_playlists env; (r.1, r.2, st)
  | "next" => let r := handle_next_track env; (r.1, r.2, st)
  | "previous" => let r := handle_previous_track env; (r.1, r.2, st)
  | "pause" => let r := handle_pause env; (r.1, r.2, st)
  | "resume" => let r := handle_resume env; (r.1, r.2, st)
  | "volume" => let r := handle_volume env extra1; (r.1, r.2, st)
  | "shuffle" => let r := handle_shuffle env true; (r.1, r.2, st)
  | "shuffle_off" => let r := handle_shuffle env false; (r.1, r.2, st)
  | "repeat" => let r := handle_repeat env "context"; (r.1, r.2, st)
  | "repeat_off" => let r := handle_repeat env "off"; (r.1, r.2, st)
  | "repeat_one" => let r := handle_repeat env "track"; (r.1, r.2, st)
  | "search" =>
    let r := handle_search env st.search_results query extra2
    (r.1, r.2.1, { st with search_results := r.2.2 })
  | "addqueue" => let r := handle_add_queue env st.search_results extra1 extra2; (r.1, r.2, st)
  | "playplaylist" => let r := handle_play_playlist env extra1; (r.1, r.2, st)
  | "seek" => let r := handle_seek env extra1; (r.1, r.2, st)
  | _ => (["!statusUnknown Command"], [], st)

/-- `process_message`: split the frame on `;` into the fixed positional slots
(missing trailing slots default to the empty string) and dispatch. -/
def process_message (env : Upstream) (st : ServerState) (message : String) :
    List String × List Effect × ServerState :=
  let parts := message.splitOn ";"
  dispatch env st (parts.getD 0 "") (parts.getD 1 "") (parts.getD 2 "") (parts.getD 3 "")

/-- Whether a playback snapshot passes `if result and result.get('item')`. -/
def pollActive : Option Playback → Bool
  | none => false
  | some pb => pb.item.isSome

/-- The comparison key the monitor builds from an active snapshot. -/
def keyOf (pb : Playback) (item : TrackItem) : StateKey :=
  ⟨pb.is_playing, item.id, item.uri⟩

/-- Observable transitions of the monitor loop body. -/
inductive MonitorEvent
  | changed (key : StateKey)
  | stopped
deriving DecidableEq

/-- One iteration of `monitor_spotify_playback`'s loop body: from the stored
`last_playback_state` and the poll outcome to the new stored state and the
emitted notifications (a raise only logs and leaves the state unchanged). -/
def monitor_step (last : Option StateKey) (poll : Except Unit (Option Playback)) :
    Option StateKey × List MonitorEvent :=
  match poll with
  | Except.error _ => (last, [])
  | Except.ok r =>
    match r with
    | some pb =>
      match pb.item with
      | some item =>
        let key := keyOf pb item
        if some key = last then (last, [])
        else (some key, [MonitorEvent.changed key])
      | none =>
        if last.isSome then (none, [MonitorEvent.stopped]) else (last, [])
    | none =>
      if last.isSome then (none, [MonitorEvent.stopped]) else (last, [])

/-- Commands registered in the handler table. -/
def commandNames : List String :=
  ["current", "playlists", "next", "previous", "pause", "resume", "volume",
   "shuffle", "shuffle_off", "repeat", "repeat_off", "repeat_one", "search",
   "addqueue", "playplaylist", "seek"]

def validCommand (c : String) : Bool := commandNames.contains c

/-- `hasTag msg tag`: the frame begins with the given tag. -/
def hasTag (msg tag : String) : Bool := tag.data.isPrefixOf msg.data

/-- Allowed response tags per command family: reads answer with their own tag
or a status, mutations always answer with a status. -/
def tagOk (command msg : String) : Bool :=
  if command = "current" then hasTag msg "!current" || hasTag msg "!status"
  else if command = "playlists" then hasTag msg "!playlists"
  else if command = "search" then hasTag msg "!search" || hasTag msg "!status"
  else hasTag msg "!status"

/-- Arguments a command needs before its handler reaches the upstream call:
numeric strings for `volume`/`seek`, a non-empty query and the recognized mode
for `search`. -/
def wellFormedArgs (command query extra1 extra2 : String) : Bool :=
  if command = "volume" then (pyInt extra1).isSome
  else if command = "seek" then (pyInt extra1).isSome
  else if command = "search" then (!(query = "")) && (extra2 = "nameartistcover")
  else true

/-- The search output as the spec describes it: the `!search` tag plus, only
for the recognized mode, the record block followed by seven tab characters
(written down independently of `handle_search` to compare against it). -/
def searchAssembled (body mode : String) : String :=
  if mode = "nameartistcover" then "!search" ++ (body ++ "\t\t\t\t\t\t\t")
  else "!search"

/-! Concrete inputs used by the closed-form theorems below. -/

def track1 : TrackItem :=
  ⟨"id1", "spotify:track:id1", "Song One", [⟨"Artist A"⟩], ⟨"Album X", []⟩, 200⟩

def resOne : SearchResults := ⟨[track1]⟩

/-- Baseline collaborator in which every upstream call raises and the canvas
resolver finds nothing. -/
def env0 : Upstream :=
  { current_playback := Except.error ()
    search := Except.error ()
    add_to_queue := Except.error ()
    volume := VolumeOutcome.spotifyException
    seek_track := Except.error ()
    next_track := Except.error ()
    previous_track := Except.error ()
    pause_playback := Except.error ()
    start_playback := Except.error ()
    set_shuffle := Except.error ()
    set_repeat := Except.error ()
    current_user_playlists := Except.error ()
    canvas := none }

def pb1 : Playback := ⟨some track1, true, 5, false, "off", ⟨50⟩⟩

def pbPaused : Playback := ⟨some track1, false, 9, false, "off", ⟨50⟩⟩

/-- A track whose album carries exactly one image: `images` is truthy but has
no second entry, so the `images[1]` lookup raises. -/
def trackOneImg : TrackItem :=
  ⟨"id2", "spotify:track:id2", "Song Two", [⟨"Artist B"⟩],
    ⟨"Album Y", [⟨"https://img.example/only.png"⟩]⟩, 300⟩

def pbOneImg : Playback := ⟨some trackOneImg, true, 1, false, "off", ⟨30⟩⟩

def envCurrent : Upstream := { env0 with current_playback := Except.ok (some pb1) }

def envOneImg : Upstream := { env0 with current_playback := Except.ok (some pbOneImg) }

def envNoPlayback : Upstream := { env0 with current_playback := Except.ok none }

def envSearch : Upstream := { env0 with search := Except.ok resOne }

def envAddOk : Upstream := { env0 with add_to_queue := Except.ok () }

def envVolumeOk : Upstream := { env0 with volume := VolumeOutcome.ok }

def st0 : ServerState := ⟨none, none⟩

/-- The single search record produced for `track1`. -/
def bodyOne : String := "Song One\x08Artist A\x08" ++ defaultIcon ++ "\n"

/-! Helper lemmas. -/

theorem hasTag_append_right (s rest tag : String) (h : hasTag s tag = true) :
    hasTag (s ++ rest) tag = true := by
  simp only [hasTag, String.data_append, List.isPrefixOf_iff_prefix] at h ⊢
  exact h.trans (List.prefix_append _ _)

theorem hasTag_pyTrim2 (tag rest : String) (h : 2 ≤ rest.data.length) :
    hasTag (pyTrim2 (tag ++ rest)) tag = true := by
  show tag.data.isPrefixOf ((tag ++ rest).data.take ((tag ++ rest).data.length - 2)) = true
  rw [String.data_append, List.isPrefixOf_iff_prefix]
  have hlen : (tag.data ++ rest.data).length - 2 = tag.data.length + (rest.data.length - 2) := by
    simp only [List.length_append]; omega
  rw [hlen, List.take_append]
  exact List.prefix_append _ _

theorem pyIndex_none_of_ge {α : Type} (xs : List α) (p : Int)
    (h : (xs.length : Int) ≤ p) : pyIndex xs p = none := by
  have h0 : 0 ≤ p := le_trans (Int.natCast_nonneg _) h
  simp only [pyIndex, if_pos h0]
  exact List.get?_eq_none.2 (by omega)

theorem pyIndex_neg {α : Type} (xs : List α) (k : Nat) (hk1 : 1 ≤ k) (hk2 : k ≤ xs.length) :
    pyIndex xs (-(k : Int)) = xs.get? (xs.length - k) := by
  have hneg : ¬ (0 ≤ -(k : Int)) := by omega
  have hpos : 0 ≤ (xs.length : Int) + -(k : Int) := by omega
  simp only [pyIndex, if_neg hneg, if_pos hpos]
  congr 1
  omega

theorem monitor_step_active (last : Option StateKey) (pb : Playback) (it : TrackItem)
    (h : pb.item = some it) :
    (monitor_step last (Except.ok (some pb))).1 = some (keyOf pb it) := by
  simp only [monitor_step, h]
  by_cases hc : some (keyOf pb it) = last
  · simp [if_pos hc, ← hc]
  · simp [if_neg hc]

theorem tagOk_current_tag (msg : String) (h : hasTag msg "!current" = true) :
    tagOk "current" msg = true := by
  simp [tagOk, h]

theorem tagOk_playlists_tag (msg : String) (h : hasTag msg "!playlists" = true) :
    tagOk "playlists" msg = true := by
  simp [tagOk, h]

theorem tagOk_search_tag (msg : String) (h : hasTag msg "!search" = true) :
    tagOk "search" msg = true := by
  simp [tagOk, h]

theorem tagOk_status_tag (c msg : String) (hc : ¬ c = "playlists")
    (h : hasTag msg "!status" = true) : tagOk c msg = true := by
  by_cases h1 : c = "current"
  · simp [tagOk, h1, h]
  · by_cases h3 : c = "search"
    · simp [tagOk, h1, hc, h3, h]
    · simp [tagOk, h1, hc, h3, h]

/-! One-response lemmas, one per handler. -/

theorem one_current (env : Upstream) :
    (handle_current_playback env).1.length = 1 ∧
    tagOk "current" ((handle_current_playback env).1.headD "") = true := by
  rcases hcp : env.current_playback with e | r
  · simp only [handle_current_playback, hcp, List.headD_cons]
    exact ⟨rfl, by decide⟩
  rcases r with _ | pb
  · simp only [handle_current_playback, hcp, List.headD_cons]
    exact ⟨rfl, by decide⟩
  rcases hit : pb.item with _ | item
  · simp only [handle_current_playback, hcp, hit, List.headD_cons]
    exact ⟨rfl, by decide⟩
  rcases him : albumImg item.album.images with _ | img
  · simp only [handle_current_playback, hcp, hit, him, List.headD_cons]
    exact ⟨rfl, by decide⟩
  · simp only [handle_current_playback, hcp, hit, him, List.headD_cons]
    refine ⟨rfl, tagOk_current_tag _ ?_⟩
    repeat apply hasTag_append_right
    decide

theorem one_playlists (env : Upstream) :
    (send_playlists env).1.length = 1 ∧
    tagOk "playlists" ((send_playlists env).1.headD "") = true := by
  rcases hcp : env.current_user_playlists with e | items
  · simp only [send_playlists, hcp, List.headD_cons]
    exact ⟨rfl, by decide⟩
  · simp only [send_playlists, hcp, List.headD_cons]
    refine ⟨rfl, tagOk_playlists_tag _ ?_⟩
    repeat apply hasTag_append_right
    decide

theorem one_next (env : Upstream) :
    (handle_next_track env).1.length = 1 ∧
    hasTag ((handle_next_track env).1.headD "") "!status" = true := by
  rcases h : env.next_track with e | u <;>
    simp only [handle_next_track, h, List.headD_cons] <;> exact ⟨rfl, by decide⟩

theorem one_previous (env : Upstream) :
    (handle_previous_track env).1.length = 1 ∧
    hasTag ((handle_previous_track env).1.headD "") "!status" = true := by
  rcases h : env.previous_track with e | u <;>
    simp only [handle_previous_track, h, List.headD_cons] <;> exact ⟨rfl, by decide⟩

theorem one_pause (env : Upstream) :
    (handle_pause env).1.length = 1 ∧
    hasTag ((handle_pause env).1.headD "") "!status" = true := by
  rcases h : env.pause_playback with e | u <;>
    simp only [handle_pause, h, List.headD_cons] <;> exact ⟨rfl, by decide⟩

theorem one_resume (env : Upstream) :
    (handle_resume env).1.length = 1 ∧
    hasTag ((handle_resume env).1.headD "") "!status" = true := by
  rcases h : env.start_playback with e | u <;>
    simp only [handle_resume, h, List.headD_cons] <;> exact ⟨rfl, by decide⟩

theorem one_volume (env : Upstream) (vol : String) :
    (handle_volume env vol).1.length = 1 ∧
    hasTag ((handle_volume env vol).1.headD "") "!status" = true := by
  rcases hp : pyInt vol with _ | v
  · simp only [handle_volume, hp, List.headD_cons]
    exact ⟨rfl, by decide⟩
  · rcases ho : env.volume
    · simp only [handle_volume, hp, ho, List.headD_cons]
      exact ⟨rfl, hasTag_append_right _ _ _ (by decide)⟩
    · simp only [handle_volume, hp, ho, List.headD_cons]
      exact ⟨rfl, by decide⟩

theorem one_shuffle (env : Upstream) (state : Bool) :
    (handle_shuffle env state).1.length = 1 ∧
    hasTag ((handle_shuffle env state).1.headD "") "!status" = true := by
  rcases h : env.set_shuffle with e | u
  · simp only [handle_shuffle, h, List.headD_cons]
    exact ⟨rfl, by decide⟩
  · simp only [handle_shuffle, h, List.headD_cons]
    exact ⟨rfl, hasTag_append_right _ _ _ (by decide)⟩

theorem one_repeat (env : Upstream) (state : String) :
    (handle_repeat env state).1.length = 1 ∧
    hasTag ((handle_repeat env state).1.headD "") "!status" = true := by
  rcases h : env.set_repeat with e | u
  · simp only [handle_repeat, h, List.headD_cons]
    exact ⟨rfl, by decide⟩
  · simp only [handle_repeat, h, List.headD_cons]
    exact ⟨rfl, hasTag_append_right _ _ _ (by decide)⟩

theorem one_search (env : Upstream) (cache : Option SearchResults) (query extra2 : String)
    (hq : ¬ query = "") (hm : extra2 = "nameartistcover") :
    (handle_search env cache query extra2).1.length = 1 ∧
    tagOk "search" ((handle_search env cache query extra2).1.headD "") = true := by
  subst hm
  rcases hs : env.search with e | res
  · have hmsg : (handle_search env cache query "nameartistcover").1
        = ["!statusError performing search"] := by
      simp [handle_search, if_neg hq, hs]
    rw [hmsg]
    exact ⟨rfl, by decide⟩
  · rcases hb : buildRecords res.items with _ | body
    · have hmsg : (handle_search env cache query "nameartistcover").1
          = ["!statusError performing search"] := by
        simp [handle_search, if_neg hq, hs, hb]
      rw [hmsg]
      exact ⟨rfl, by decide⟩
    · have hmsg : (handle_search env cache query "nameartistcover").1
          = [pyTrim2 ("!search" ++ (body ++ "\t\t\t\t\t\t\t"))] := by
        simp [handle_search, if_neg hq, hs, hb]
      rw [hmsg]
      refine ⟨rfl, tagOk_search_tag _ ?_⟩
      show hasTag (pyTrim2 ("!search" ++ (body ++ "\t\t\t\t\t\t\t"))) "!search" = true
      apply hasTag_pyTrim2
      have h7 : ("\t\t\t\t\t\t\t" : String).data.length = 7 := rfl
      simp only [String.data_append, List.length_append, h7]
      omega

theorem one_addqueue (env : Upstream) (cache : Option SearchResults) (index source : String) :
    (handle_add_queue env cache index source).1.length = 1 ∧
    hasTag ((handle_add_queue env cache index source).1.headD "") "!status" = true := by
  rcases cache with _ | res
  · have hmsg : (handle_add_queue env none index source).1
        = ["!statusNo search results available"] := by
      simp [handle_add_queue]
    rw [hmsg]
    exact ⟨rfl, by decide⟩
  · by_cases hsrc : source = "fromsearch"
    · subst hsrc
      rcases hp : pyInt index with _ | i
      · have hmsg : (handle_add_queue env (some res) index "fromsearch").1
            = ["!statusError adding track to queue"] := by
          simp [handle_add_queue, hp]
        rw [hmsg]
        exact ⟨rfl, by decide⟩
      rcases hx : pyIndex res.items i with _ | t
      · have hmsg : (handle_add_queue env (some res) index "fromsearch").1
            = ["!statusError adding track to queue"] := by
          simp [handle_add_queue, hp, hx]
        rw [hmsg]
        exact ⟨rfl, by decide⟩
      rcases ha : env.add_to_queue with e | u
      · have hmsg : (handle_add_queue env (some res) index "fromsearch").1
            = ["!statusError adding track to queue"] := by
          simp [handle_add_queue, hp, hx, ha]
        rw [hmsg]
        exact ⟨rfl, by decide⟩
      · have hmsg : (handle_add_queue env (some res) index "fromsearch").1
            = ["!statusTrack added to queue"] := by
          simp [handle_add_queue, hp, hx, ha]
        rw [hmsg]
        exact ⟨rfl, by decide⟩
    · have hmsg : (handle_add_queue env (some res) index source).1
          = ["!statusNo search results available"] := by
        simp [handle_add_queue, hsrc]
      rw [hmsg]
      exact ⟨rfl, by decide⟩

theorem one_playplaylist (env : Upstream) (idx : String) :
    (handle_play_playlist env idx).1.length = 1 ∧
    hasTag ((handle_play_playlist env idx).1.headD "") "!status" = true := by
  rcases hl : env.current_user_playlists with e | items
  · simp only [handle_play_playlist, hl, List.headD_cons]
    exact ⟨rfl, by decide⟩
  rcases hp : pyInt idx with _ | i
  · simp only [handle_play_playlist, hl, hp, List.headD_cons]
    exact ⟨rfl, by decide⟩
  rcases hx : pyIndex items i with _ | pl
  · simp only [handle_play_playlist, hl, hp, hx, List.headD_cons]
    exact ⟨rfl, by decide⟩
  rcases hs : env.start_playback with e | u <;>
    simp only [handle_play_playlist, hl, hp, hx, hs, List.headD_cons] <;>
    exact ⟨rfl, by decide⟩

theorem one_seek (env : Upstream) (pos : String) :
    (handle_seek env pos).1.length = 1 ∧
    hasTag ((handle_seek env pos).1.headD "") "!status" = true := by
  rcases hp : pyInt pos with _ | ms
  · simp only [handle_seek, hp, List.headD_cons]
    exact ⟨rfl, by decide⟩
  rcases hs : env.seek_track with e | u
  · simp only [handle_seek, hp, hs, List.headD_cons]
    exact ⟨rfl, by decide⟩
  · simp only [handle_seek, hp, hs, List.headD_cons]
    refine ⟨rfl, ?_⟩
    repeat apply hasTag_append_right
    decide

/-! Claim theorems. -/

/-- C1, counterexample: with a one-element cache and index `"5"`, `addqueue`
from search answers the generic `Error adding track to queue` status, not the
`No search results available` status the claim names. -/
theorem addqueue_out_of_range_counterexample :
    handle_add_queue env0 (some resOne) "5" "fromsearch"
      = (["!statusError adding track to queue"], [])
    ∧ ¬ (handle_add_queue env0 (some resOne) "5" "fromsearch"
      = (["!statusNo search results available"], [])) := by
  decide

/-- C1 (amended): with no cache, `addqueue` from search answers the
`No search results available` status; with a cache present and an index at or
beyond its length it answers the `Error adding track to queue` status (the
caught `IndexError`); in both cases no upstream add-to-queue call is made and
nothing is raised. -/
theorem addqueue_no_results_and_error (env : Upstream) (i : String)
    (res : SearchResults) (p : Int)
    (hp : pyInt i = some p) (hge : (res.items.length : Int) ≤ p) :
    handle_add_queue env none i "fromsearch" = (["!statusNo search results available"], [])
    ∧ handle_add_queue env (some res) i "fromsearch"
      = (["!statusError adding track to queue"], []) := by
  constructor
  · simp [handle_add_queue]
  · simp [handle_add_queue, hp, pyIndex_none_of_ge res.items p hge]

/-- C1 witness at a concrete cache and index. -/
theorem addqueue_no_results_and_error_witness :
    handle_add_queue env0 none "5" "fromsearch" = (["!statusNo search results available"], [])
    ∧ handle_add_queue env0 (some resOne) "5" "fromsearch"
      = (["!statusError adding track to queue"], []) :=
  addqueue_no_results_and_error env0 "5" resOne 5 (by decide) (by decide)

/-- C2, counterexample: when the canvas resolver returns no URL, the final
field of the `!current` payload is the literal string `None` (Python
`str(None)`), not the empty string the claim describes. -/
theorem current_canvas_none_counterexample :
    (handle_current_playback envCurrent).1
      = ["!currentArtist A\tAlbum X\t" ++ defaultIcon ++ "\tSong One\t50\t5\t200\tTrue\tNone"]
    ∧ ¬ ((handle_current_playback envCurrent).1
      = ["!currentArtist A\tAlbum X\t" ++ defaultIcon ++ "\tSong One\t50\t5\t200\tTrue\t"]) := by
  decide

/-- C2 (amended): `current` answers `!currentNone` whenever the snapshot has
no active item; when there is an active item and the album-art lookup
succeeds (empty image list gives the fallback icon, or a second image
exists) it sends the full tab-joined payload whose final (canvas-URL) field
is the string `None` whenever the resolver returned no URL; and when the
album-art lookup raises (a non-empty image list with no second entry) it
answers the fatal-error status instead of a payload. -/
theorem current_responses (env1 env2 env3 : Upstream) (r : Option Playback)
    (pb pb3 : Playback) (it it3 : TrackItem) (img : String)
    (h1 : env1.current_playback = Except.ok r) (hr : pollActive r = false)
    (h2 : env2.current_playback = Except.ok (some pb)) (hi : pb.item = some it)
    (him : albumImg it.album.images = some img) (hc : env2.canvas = none)
    (h3 : env3.current_playback = Except.ok (some pb3)) (hi3 : pb3.item = some it3)
    (him3 : albumImg it3.album.images = none) :
    handle_current_playback env1 = (["!currentNone"], [Effect.fetchPlayback])
    ∧ handle_current_playback env2
      = (["!current" ++ String.intercalate ", " (it.artists.map Artist.name) ++ "\t"
           ++ it.album.name ++ "\t" ++ img ++ "\t" ++ it.name ++ "\t"
           ++ toString pb.device.volume_percent ++ "\t" ++ toString pb.progress_ms ++ "\t"
           ++ toString it.duration_ms ++ "\t" ++ pyStr pb.is_playing ++ "\t" ++ "None"],
         [Effect.fetchPlayback, Effect.canvasFetch it.uri])
    ∧ handle_current_playback env3
      = (["!statusFatal error in fetching current info"], [Effect.fetchPlayback]) := by
  refine ⟨?_, ?_, ?_⟩
  · rcases r with _ | pb0
    · simp [handle_current_playback, h1]
    · have hit0 : pb0.item = none := by
        cases hpi : pb0.item
        · rfl
        · simp [pollActive, hpi] at hr
      simp [handle_current_playback, h1, hit0]
  · simp [handle_current_playback, h2, hi, him, hc, pyOptStr]
  · simp [handle_current_playback, h3, hi3, him3]

/-- C2 witness at concrete snapshots: no playback, a zero-image album with
the resolver returning nothing, and a one-image album. -/
theorem current_responses_witness :
    handle_current_playback envNoPlayback = (["!currentNone"], [Effect.fetchPlayback])
    ∧ handle_current_playback envCurrent
      = (["!current" ++ String.intercalate ", " (track1.artists.map Artist.name) ++ "\t"
           ++ track1.album.name ++ "\t" ++ defaultIcon ++ "\t" ++ track1.name ++ "\t"
           ++ toString pb1.device.volume_percent ++ "\t" ++ toString pb1.progress_ms ++ "\t"
           ++ toString track1.duration_ms ++ "\t" ++ pyStr pb1.is_playing ++ "\t" ++ "None"],
         [Effect.fetchPlayback, Effect.canvasFetch track1.uri])
    ∧ handle_current_playback envOneImg
      = (["!statusFatal error in fetching current info"], [Effect.fetchPlayback]) :=
  current_responses envNoPlayback envCurrent envOneImg none pb1 pbOneImg track1 trackOneImg
    defaultIcon rfl rfl rfl rfl (by decide) rfl rfl rfl (by decide)

/-- C3, counterexample: an unrecognized search mode yields the four-character
remainder `!sear` (the 7-character tag minus its final two characters), not
`!searc` as the claim states. -/
theorem search_unknown_mode_counterexample :
    handle_search envSearch none "q" "weird"
      = (["!sear"], [Effect.searchCall "q"], some resOne)
    ∧ ¬ ("!sear" = "!searc") := by
  decide

/-- C3 (amended): for a non-empty query whose search succeeds and whose
records all format, the response is the assembled output (the `!search` tag
plus, only for mode `nameartistcover`, the record block and seven tabs) with
its final two characters removed unconditionally; an unrecognized mode thus
yields `!sear`. -/
theorem search_response_trimmed (env : Upstream) (cache : Option SearchResults)
    (query mode : String) (res : SearchResults) (body : String)
    (hq : ¬ query = "") (hs : env.search = Except.ok res)
    (hb : buildRecords res.items = some body) :
    handle_search env cache query mode
      = ([pyTrim2 (searchAssembled body mode)], [Effect.searchCall query], some res)
    ∧ (¬ mode = "nameartistcover" → pyTrim2 (searchAssembled body mode) = "!sear") := by
  by_cases hmode : mode = "nameartistcover"
  · subst hmode
    constructor
    · simp [handle_search, if_neg hq, hs, hb, searchAssembled]
    · intro hcontra
      exact absurd rfl hcontra
  · constructor
    · simp [handle_search, if_neg hq, hs, if_neg hmode, searchAssembled]
    · intro _
      simp only [searchAssembled, if_neg hmode]
      decide

/-- C3 witness at a concrete query and unrecognized mode. -/
theorem search_response_trimmed_witness :
    handle_search envSearch none "daft punk" "weird"
      = ([pyTrim2 (searchAssembled bodyOne "weird")], [Effect.searchCall "daft punk"], some resOne)
    ∧ (¬ ("weird" : String) = "nameartistcover" →
        pyTrim2 (searchAssembled bodyOne "weird") = "!sear") :=
  search_response_trimmed envSearch none "daft punk" "weird" resOne bodyOne
    (by decide) rfl (by decide)

/-- C4: over two consecutive successful polls that both carry an active item,
the monitor emits nothing and keeps its stored key when the comparison keys
agree, and emits exactly one change notification and stores the new key when
the `is_playing` flag flips. -/
theorem monitor_change_detection (last : Option StateKey) (x y : Playback)
    (it1 it2 : TrackItem) (h1 : x.item = some it1) (h2 : y.item = some it2) :
    (keyOf y it2 = keyOf x it1 →
      monitor_step ((monitor_step last (Except.ok (some x))).1) (Except.ok (some y))
        = ((monitor_step last (Except.ok (some x))).1, []))
    ∧ (¬ y.is_playing = x.is_playing →
      monitor_step ((monitor_step last (Except.ok (some x))).1) (Except.ok (some y))
        = (some (keyOf y it2), [MonitorEvent.changed (keyOf y it2)])) := by
  have hs1 : (monitor_step last (Except.ok (some x))).1 = some (keyOf x it1) :=
    monitor_step_active last x it1 h1
  constructor
  · intro heq
    rw [hs1]
    simp [monitor_step, h2, heq]
  · intro hne
    have hkne : ¬ (keyOf y it2 = keyOf x it1) := fun hh =>
      hne (congrArg StateKey.is_playing hh)
    rw [hs1]
    simp [monitor_step, h2, hkne]

/-- C4 witness: a pause (same track, flipped flag) emits exactly one change. -/
theorem monitor_change_detection_witness :
    monitor_step ((monitor_step none (Except.ok (some pb1))).1) (Except.ok (some pbPaused))
      = (some (keyOf pbPaused track1), [MonitorEvent.changed (keyOf pbPaused track1)]) :=
  (monitor_change_detection none pb1 pbPaused track1 track1 rfl rfl).2 (by decide)

/-- C5: `volume` reports a non-numeric argument as invalid without an
upstream call, forwards any parsed integer and surfaces a Spotify rejection
as a status, and `seek` answers a status with no upstream call on a
non-integer argument. -/
theorem volume_seek_validation (envA envB envC envD : Upstream)
    (volBad volOk seekBad : String) (v : Int)
    (hbad : pyInt volBad = none) (hok : pyInt volOk = some v) (hsk : pyInt seekBad = none)
    (hB : envB.volume = VolumeOutcome.ok) (hC : envC.volume = VolumeOutcome.spotifyException) :
    handle_volume envA volBad = (["!statusInvalid volume value"], [])
    ∧ handle_volume envB volOk = (["!statusVolume set to: " ++ volOk], [Effect.setVolume v])
    ∧ handle_volume envC volOk
        = (["!statusError adjusting volume, it might not be allowed on your selected device"],
           [Effect.setVolume v])
    ∧ handle_seek envD seekBad = (["!statusError seeking track"], []) := by
  refine ⟨?_, ?_, ?_, ?_⟩ <;> simp [handle_volume, handle_seek, hbad, hok, hsk, hB, hC]

/-- C5 witness: `volume("abc")`, `volume("150")` and `seek("-")`. -/
theorem volume_seek_validation_witness :
    handle_volume env0 "abc" = (["!statusInvalid volume value"], [])
    ∧ handle_volume envVolumeOk "150" = (["!statusVolume set to: " ++ "150"], [Effect.setVolume 150])
    ∧ handle_volume env0 "150"
        = (["!statusError adjusting volume, it might not be allowed on your selected device"],
           [Effect.setVolume 150])
    ∧ handle_seek env0 "-" = (["!statusError seeking track"], []) :=
  volume_seek_validation env0 envVolumeOk env0 env0 "abc" "150" "-" 150
    (by decide) (by decide) (by decide) rfl rfl

/-- C6: a no-playback poll from a non-empty stored state emits exactly one
stopped transition and clears the state; a further no-playback poll from the
cleared state emits nothing; and `current` answers `!currentNone` while the
snapshot has no active item. -/
theorem monitor_stop_transition (k : StateKey) (r : Option Playback) (env : Upstream)
    (hr : pollActive r = false) (he : env.current_playback = Except.ok r) :
    monitor_step (some k) (Except.ok r) = (none, [MonitorEvent.stopped])
    ∧ monitor_step none (Except.ok r) = (none, [])
    ∧ handle_current_playback env = (["!currentNone"], [Effect.fetchPlayback]) := by
  rcases r with _ | pb
  · exact ⟨by simp [monitor_step], by simp [monitor_step],
      by simp [handle_current_playback, he]⟩
  · have hit0 : pb.item = none := by
      cases hpi : pb.item
      · rfl
      · simp [pollActive, hpi] at hr
    exact ⟨by simp [monitor_step, hit0], by simp [monitor_step, hit0],
      by simp [handle_current_playback, he, hit0]⟩

/-- C6 witness at a concrete stored key and an empty poll. -/
theorem monitor_stop_transition_witness :
    monitor_step (some ⟨true, "id1", "spotify:track:id1"⟩) (Except.ok none)
      = (none, [MonitorEvent.stopped])
    ∧ monitor_step none (Except.ok none) = (none, [])
    ∧ handle_current_playback envNoPlayback = (["!currentNone"], [Effect.fetchPlayback]) :=
  monitor_stop_transition ⟨true, "id1", "spotify:track:id1"⟩ none envNoPlayback rfl rfl

/-- C7: every registered command with well-formed arguments produces exactly
one response frame, whose tag belongs to the command's family, for every
outcome of the upstream call it performs (the dispatcher is total: every
failure is converted into a frame rather than escaping). -/
theorem dispatch_one_tagged_response (env : Upstream) (st : ServerState)
    (command query extra1 extra2 : String)
    (hv : validCommand command = true)
    (hw : wellFormedArgs command query extra1 extra2 = true) :
    (dispatch env st command query extra1 extra2).1.length = 1
    ∧ tagOk command ((dispatch env st command query extra1 extra2).1.headD "") = true := by
  have hmem : command ∈ ["current", "playlists", "next", "previous", "pause", "resume",
      "volume", "shuffle", "shuffle_off", "repeat", "repeat_off", "repeat_one", "search",
      "addqueue", "playplaylist", "seek"] := List.elem_iff.mp hv
  fin_cases hmem
  · simpa [dispatch] using one_current env
  · simpa [dispatch] using one_playlists env
  · have h := one_next env
    exact ⟨by simpa [dispatch] using h.1,
      by simpa [dispatch] using tagOk_status_tag "next" _ (by decide) h.2⟩
  · have h := one_previous env
    exact ⟨by simpa [dispatch] using h.1,
      by simpa [dispatch] using tagOk_status_tag "previous" _ (by decide) h.2⟩
  · have h := one_pause env
    exact ⟨by simpa [dispatch] using h.1,
      by simpa [dispatch] using tagOk_status_tag "pause" _ (by decide) h.2⟩
  · have h := one_resume env
    exact ⟨by simpa [dispatch] using h.1,
      by simpa [dispatch] using tagOk_status_tag "resume" _ (by decide) h.2⟩
  · have h := one_volume env extra1
    exact ⟨by simpa [dispatch] using h.1,
      by simpa [dispatch] using tagOk_status_tag "volume" _ (by decide) h.2⟩
  · have h := one_shuffle env true
    exact ⟨by simpa [dispatch] using h.1,
      by simpa [dispatch] using tagOk_status_tag "shuffle" _ (by decide) h.2⟩
  · have h := one_shuffle env false
    exact ⟨by simpa [dispatch] using h.1,
      by simpa [dispatch] using tagOk_status_tag "shuffle_off" _ (by decide) h.2⟩
  · have h := one_repeat env "context"
    exact ⟨by simpa [dispatch] using h.1,
      by simpa [dispatch] using tagOk_status_tag "repeat" _ (by decide) h.2⟩
  · have h := one_repeat env "off"
    exact ⟨by simpa [dispatch] using h.1,
      by simpa [dispatch] using tagOk_status_tag "repeat_off" _ (by decide) h.2⟩
  · have h := one_repeat env "track"
    exact ⟨by simpa [dispatch] using h.1,
      by simpa [dispatch] using tagOk_status_tag "repeat_one" _ (by decide) h.2⟩
  · have hw' : ¬ query = "" ∧ extra2 = "nameartistcover" := by
      simpa [wellFormedArgs] using hw
    have h := one_search env st.search_results query extra2 hw'.1 hw'.2
    exact ⟨by simpa [dispatch] using h.1, by simpa [dispatch] using h.2⟩
  · have h := one_addqueue env st.search_results extra1 extra2
    exact ⟨by simpa [dispatch] using h.1,
      by simpa [dispatch] using tagOk_status_tag "addqueue" _ (by decide) h.2⟩
  · have h := one_playplaylist env extra1
    exact ⟨by simpa [dispatch] using h.1,
      by simpa [dispatch] using tagOk_status_tag "playplaylist" _ (by decide) h.2⟩
  · have h := one_seek env extra1
    exact ⟨by simpa [dispatch] using h.1,
      by simpa [dispatch] using tagOk_status_tag "seek" _ (by decide) h.2⟩

/-- C7 witness at a concrete `volume` dispatch. -/
theorem dispatch_one_tagged_response_witness :
    (dispatch env0 st0 "volume" "" "50" "").1.length = 1
    ∧ tagOk "volume" ((dispatch env0 st0 "volume" "" "50" "").1.headD "") = true :=
  dispatch_one_tagged_response env0 st0 "volume" "" "50" "" (by decide) (by decide)

/-- C8: for a playback snapshot available at connect time the init frame is
the `!init` tag, the shuffle flag, the repeat code (`off` to 0, `context` to
1, `track` to 2), the playing flag and the padding tabs; a failed snapshot
downgrades to `!initError`. -/
theorem init_snapshot (env1 env2 : Upstream) (pb : Playback)
    (h1 : env1.current_playback = Except.ok (some pb))
    (hrep : pb.repeat_state = "off" ∨ pb.repeat_state = "context" ∨ pb.repeat_state = "track")
    (h2 : env2.current_playback = Except.error ()) :
    send_initial_state env1
      = ["!init" ++ pyStr pb.shuffle_state ++ "\t"
          ++ (if pb.repeat_state = "off" then "0"
              else if pb.repeat_state = "context" then "1" else "2") ++ "\t"
          ++ pyStr pb.is_playing ++ "\t\t\t\t\t"]
    ∧ send_initial_state env2 = ["!initError"] := by
  refine ⟨?_, by simp [send_initial_state, h2]⟩
  rcases hrep with h | h | h <;> simp [send_initial_state, h1, h]

/-- C8 witness at a concrete snapshot and a failing fetch. -/
theorem init_snapshot_witness :
    send_initial_state envCurrent
      = ["!init" ++ pyStr pb1.shuffle_state ++ "\t"
          ++ (if pb1.repeat_state = "off" then "0"
              else if pb1.repeat_state = "context" then "1" else "2") ++ "\t"
          ++ pyStr pb1.is_playing ++ "\t\t\t\t\t"]
    ∧ send_initial_state env0 = ["!initError"] :=
  init_snapshot envCurrent env0 pb1 rfl (Or.inl rfl) rfl

/-- C9: a search command with an empty query sends no frame, performs no
upstream search, and leaves the cached search results unchanged. -/
theorem search_empty_query_noop (env : Upstream) (cache : Option SearchResults)
    (extra2 : String) :
    handle_search env cache "" extra2 = ([], [], cache) := by
  simp [handle_search]

/-- C10: a negative index `-k` with `1 ≤ k ≤ n` into a cache of length `n`
resolves by Python negative indexing to position `n - k`, enqueues that
track, and answers the success status. -/
theorem addqueue_negative_index (env : Upstream) (items : List TrackItem) (i : String)
    (k : Nat) (t : TrackItem) (hk1 : 1 ≤ k) (hk2 : k ≤ items.length)
    (hi : pyInt i = some (-(k : Int)))
    (ht : items.get? (items.length - k) = some t)
    (hok : env.add_to_queue = Except.ok ()) :
    handle_add_queue env (some ⟨items⟩) i "fromsearch"
      = (["!statusTrack added to queue"], [Effect.addToQueue t.id]) := by
  have hpi : pyIndex items (-(k : Int)) = some t := (pyIndex_neg items k hk1 hk2).trans ht
  simp [handle_add_queue, hi, hpi, hok]

/-- C10 witness: index `"-1"` on a one-element cache enqueues that element. -/
theorem addqueue_negative_index_witness :
    handle_add_queue envAddOk (some ⟨[track1]⟩) "-1" "fromsearch"
      = (["!statusTrack added to queue"], [Effect.addToQueue track1.id]) :=
  addqueue_negative_index envAddOk [track1] "-1" 1 track1 (by decide) (by decide)
    (by decide) rfl rfl

end SpotiSocket
